import Mathlib

/-!
A verification development for a Telegram nutrition-tracking bot
(`bot.py`, `database/db_manager.py`, `database/models.py`).

The Python code is shallowly embedded: datetimes and `time.time()` values are
rationals counting seconds, SQL tables are lists of records, the in-memory
`user_data` dict is an association list keyed by user id, and the
`notification_cache` dict (read only through `.get(uid, 0)`) is a total
function `Nat → ℚ` defaulting to `0`.  `float` arithmetic is embedded as exact
rational arithmetic; Python's `round(x, 1)` is embedded as round-half-to-even
at one decimal (`pyRound1`).  The `User` table joins (`telegram_id → user.id`)
are collapsed: the model keys subscriptions, analyses and sessions directly by
the Telegram user id, which is behaviour-preserving for the queries involved
(a missing user row corresponds to an id that simply owns no records).
-/

namespace SnapEat

/-! ## Rounding: Python's `round(x, 1)` (round half to even at one decimal) -/

/-- Round a rational to the nearest integer, ties to even
(the rounding mode of Python's builtin `round`). -/
def roundHalfEven (x : ℚ) : ℤ :=
  let n := ⌊x⌋
  let f := x - (n : ℚ)
  if f < 1/2 then n
  else if 1/2 < f then n + 1
  else if n % 2 = 0 then n else n + 1

/-- Embedding of Python `round(x, 1)`. -/
def pyRound1 (x : ℚ) : ℚ := (roundHalfEven (x * 10) : ℚ) / 10

theorem abs_roundHalfEven_sub (x : ℚ) : |(roundHalfEven x : ℚ) - x| ≤ 1/2 := by
  unfold roundHalfEven
  dsimp only
  have h0 : (0 : ℚ) ≤ x - (⌊x⌋ : ℚ) := by
    have := Int.floor_le x; linarith
  have h1 : x - (⌊x⌋ : ℚ) < 1 := by
    have := Int.lt_floor_add_one x; linarith
  split_ifs with hlt hgt hev <;>
    · rw [abs_le]; push_cast; constructor <;> linarith

theorem abs_pyRound1_sub (x : ℚ) : |pyRound1 x - x| ≤ 1/20 := by
  have h := abs_roundHalfEven_sub (x * 10)
  have key : pyRound1 x - x = ((roundHalfEven (x * 10) : ℚ) - x * 10) / 10 := by
    unfold pyRound1; ring
  rw [key, abs_div, abs_of_pos (show (0:ℚ) < 10 by norm_num)]
  linarith

/-! ## `DatabaseManager.calculate_daily_norms` (db_manager.py:135-172) -/

inductive Gender | male | female
  deriving DecidableEq, Repr

inductive Goal | weight_loss | maintenance | weight_gain
  deriving DecidableEq, Repr

/-- The four returned daily norms. -/
structure DailyNorms where
  daily_calories : ℚ
  daily_proteins : ℚ
  daily_fats : ℚ
  daily_carbs : ℚ
  deriving DecidableEq, Repr

/-- Translation of `DatabaseManager.calculate_daily_norms`. -/
def calculate_daily_norms (gender : Gender) (age weight height activity_level : ℚ)
    (goal : Goal) : DailyNorms :=
  let bmr : ℚ :=
    match gender with
    | .male => 10 * weight + 6.25 * height - 5 * age + 5
    | .female => 10 * weight + 6.25 * height - 5 * age - 161
  let daily_calories := bmr * activity_level
  let daily_calories :=
    match goal with
    | .weight_loss => daily_calories * 0.8
    | .weight_gain => daily_calories * 1.15
    | .maintenance => daily_calories
  let ratios : ℚ × ℚ × ℚ :=
    match goal with
    | .weight_loss => (0.35, 0.30, 0.35)
    | .weight_gain => (0.30, 0.25, 0.45)
    | .maintenance => (0.30, 0.30, 0.40)
  let daily_proteins := (daily_calories * ratios.1) / 4
  let daily_fats := (daily_calories * ratios.2.1) / 9
  let daily_carbs := (daily_calories * ratios.2.2) / 4
  { daily_calories := pyRound1 daily_calories
    daily_proteins := pyRound1 daily_proteins
    daily_fats := pyRound1 daily_fats
    daily_carbs := pyRound1 daily_carbs }

/-! Spec-side formulas, written from the claim's words, for comparison with
the source translation above. -/

/-- Spec formula: `BMR = 10*weight + 6.25*height - 5*age + (5 male | -161 female)`. -/
def specBMR (gender : Gender) (age weight height : ℚ) : ℚ :=
  10 * weight + 6.25 * height - 5 * age + (match gender with | .male => 5 | .female => -161)

/-- Spec formula: goal scaling factor (weight_loss ×0.8, weight_gain ×1.15, maintenance ×1.0). -/
def specGoalScale (goal : Goal) : ℚ :=
  match goal with
  | .weight_loss => 0.8
  | .weight_gain => 1.15
  | .maintenance => 1

/-- Spec formula: `dailyCalories = BMR * activityFactor * goalScale`. -/
def specDailyCalories (gender : Gender) (age weight height activity_level : ℚ)
    (goal : Goal) : ℚ :=
  specBMR gender age weight height * activity_level * specGoalScale goal

/-- Spec macro shares per goal: protein/fat/carb percentages of calories. -/
def specShares (goal : Goal) : ℚ × ℚ × ℚ :=
  match goal with
  | .weight_loss => (0.35, 0.30, 0.35)
  | .weight_gain => (0.30, 0.25, 0.45)
  | .maintenance => (0.30, 0.30, 0.40)

/-! ## Database model (`database/models.py`, `database/db_manager.py`)

Tables are lists of records.  Datetimes are rationals counting seconds; the
code's `datetime.utcnow()` is a parameter `nowUtc`, and the Moscow-time
comparison value `datetime.utcnow() + timedelta(hours=3)` is `nowUtc + 10800`.
`timedelta(days=30 * months)` is `2592000 * months` seconds. -/

/-- A `user_subscriptions` row (models.py:52-72); `is_active` defaults to `True`. -/
structure UserSubscription where
  user_id : Nat
  end_date : ℚ
  is_active : Bool
  deriving DecidableEq, Repr

inductive MealType | breakfast | lunch | dinner | snack
  deriving DecidableEq, Repr

/-- A `food_analyses` row (models.py:75-101). -/
structure FoodAnalysisRow where
  user_id : Nat
  food_name : String
  calories : ℚ
  proteins : ℚ
  fats : ℚ
  carbs : ℚ
  portion_weight : ℚ
  analysis_date : ℚ
  meal_type : MealType
  deriving DecidableEq, Repr

/-- The persisted store: subscription and food-analysis tables. -/
structure DB where
  subs : List UserSubscription
  analyses : List FoodAnalysisRow
  deriving DecidableEq, Repr

def emptyDB : DB := { subs := [], analyses := [] }

/-- Hour-of-day of an epoch-seconds timestamp (`datetime.hour`). -/
def hourOf (t : ℚ) : ℤ := (⌊t / 3600⌋) % 24

/-- Translation of `determine_meal_type` (db_manager.py:25-44). -/
def determine_meal_type (t : ℚ) : MealType :=
  let hour := hourOf t
  if 5 ≤ hour ∧ hour < 11 then .breakfast
  else if 11 ≤ hour ∧ hour < 16 then .lunch
  else if 16 ≤ hour ∧ hour < 21 then .dinner
  else .snack

/-- The filter of the expired-subscriptions query in
`check_subscription_status` (db_manager.py:383-387):
`is_active == True AND end_date <= now_msk`, restricted to user `u`. -/
def isExpiredActive (u : Nat) (nowMsk : ℚ) (s : UserSubscription) : Bool :=
  s.user_id == u && s.is_active && decide (s.end_date ≤ nowMsk)

/-- The filter of the active-subscription query in
`check_subscription_status` (db_manager.py:399-403):
`is_active == True AND end_date > now_msk`, restricted to user `u`. -/
def isCurrentActive (u : Nat) (nowMsk : ℚ) (s : UserSubscription) : Bool :=
  s.user_id == u && s.is_active && decide (nowMsk < s.end_date)

/-- Translation of `DatabaseManager.check_subscription_status`
(db_manager.py:368-405): deactivate the caller's expired-but-active
subscriptions, commit, then report whether an active unexpired one remains.
Returns the result together with the committed store. -/
def check_subscription_status (u : Nat) (nowUtc : ℚ) (db : DB) : Bool × DB :=
  let nowMsk := nowUtc + 10800
  let subs' := db.subs.map fun s =>
    if isExpiredActive u nowMsk s then { s with is_active := false } else s
  (subs'.any (isCurrentActive u nowMsk), { db with subs := subs' })

/-- Translation of `DatabaseManager.add_subscription` (db_manager.py:407-433):
`end_date = datetime.utcnow() + timedelta(days=30 * months)`; `is_active`
takes its column default `True`.  Returns the new row and the new store. -/
def add_subscription (u : Nat) (months : Nat) (nowUtc : ℚ) (db : DB) :
    UserSubscription × DB :=
  let s : UserSubscription :=
    { user_id := u, end_date := nowUtc + 2592000 * months, is_active := true }
  (s, { db with subs := db.subs ++ [s] })

/-- Translation of `DatabaseManager.save_food_analysis` (db_manager.py:324-366):
appends one row; the autoincrement id is modelled as `analyses.length + 1`
(always nonzero, as a flushed SQL id is). -/
def save_food_analysis (u : Nat) (food_name : String)
    (calories proteins fats carbs portion_weight : ℚ) (analysis_time : ℚ)
    (db : DB) : Nat × DB :=
  let row : FoodAnalysisRow :=
    { user_id := u, food_name := food_name, calories := calories
      proteins := proteins, fats := fats, carbs := carbs
      portion_weight := portion_weight, analysis_date := analysis_time
      meal_type := determine_meal_type analysis_time }
  (db.analyses.length + 1, { db with analyses := db.analyses ++ [row] })

/-- The count query of `get_remaining_free_requests` (db_manager.py:447-449):
all `FoodAnalysis` rows ever saved for the user. -/
def used_requests (u : Nat) (db : DB) : Nat :=
  (db.analyses.filter fun r => r.user_id == u).length

/-- Translation of `DatabaseManager.get_remaining_free_requests`
(db_manager.py:435-452).  `float('inf')` is modelled as `none`; the finite
branch is `max(0, FREE_REQUESTS_LIMIT - used_requests)`.  The free limit comes
from `config.py` (not in the sources), so it is a parameter. -/
def get_remaining_free_requests (limit : ℤ) (u : Nat) (nowUtc : ℚ) (db : DB) :
    Option ℤ × DB :=
  let c := check_subscription_status u nowUtc db
  if c.1 then (none, c.2)
  else (some (max 0 (limit - used_requests u c.2)), c.2)

/-! ## Helper lemmas -/

theorem listAny_map_eq {α : Type} (l : List α) (f : α → α) (p q : α → Bool)
    (h : ∀ a, p (f a) = q a) : (l.map f).any p = l.any q := by
  induction l with
  | nil => rfl
  | cons a t ih => simp [h, ih]

/-- Deactivating an expired-active subscription clears the expired-active filter. -/
theorem isExpiredActive_deactivate (u : Nat) (m : ℚ) (s : UserSubscription) :
    isExpiredActive u m
      (if isExpiredActive u m s then { s with is_active := false } else s) = false := by
  by_cases h : isExpiredActive u m s = true
  · rw [if_pos h]
    simp [isExpiredActive]
  · rw [if_neg h]
    simpa using h

/-- Deactivating expired subscriptions does not change the currently-active filter. -/
theorem isCurrentActive_deactivate (u : Nat) (m : ℚ) (s : UserSubscription) :
    isCurrentActive u m
      (if isExpiredActive u m s then { s with is_active := false } else s)
      = isCurrentActive u m s := by
  by_cases h : isExpiredActive u m s = true
  · have hle : s.end_date ≤ m := by
      have h' := h
      simp [isExpiredActive] at h'
      exact h'.2
    rw [if_pos h]
    have hL : isCurrentActive u m { s with is_active := false } = false := by
      simp [isCurrentActive]
    rw [hL]
    symm
    simp [isCurrentActive]
    intro _ _
    linarith
  · rw [if_neg h]

/-- C1: after `check_subscription_status(u)` returns, no subscription record
of `u` in the committed store is still flagged active with
`end_date <= now` (`now` being the Moscow-time instant the call compares
against), and the returned boolean equals "`u` has some record with
`is_active = true` and `end_date > now`" — over the committed store and,
equally, over the store as it was before the call. -/
theorem check_subscription_status_spec (u : Nat) (nowUtc : ℚ) (db : DB) :
    ((check_subscription_status u nowUtc db).2.subs.any
        (isExpiredActive u (nowUtc + 10800))) = false ∧
    (check_subscription_status u nowUtc db).1
      = (check_subscription_status u nowUtc db).2.subs.any
          (isCurrentActive u (nowUtc + 10800)) ∧
    (check_subscription_status u nowUtc db).1
      = db.subs.any (isCurrentActive u (nowUtc + 10800)) := by
  refine ⟨?_, rfl, ?_⟩
  · show (db.subs.map _).any _ = false
    rw [listAny_map_eq _ _ _ (fun _ => false)
      (fun s => isExpiredActive_deactivate u (nowUtc + 10800) s)]
    simp
  · show (db.subs.map _).any _ = _
    exact listAny_map_eq _ _ _ _
      (fun s => isCurrentActive_deactivate u (nowUtc + 10800) s)

/-- C2: `get_remaining_free_requests(u)` is unbounded (`none`) exactly when the
subscription check succeeds and otherwise `max(0, limit - usedRequests)`, where
`usedRequests` counts every `FoodAnalysis` row ever saved for `u`; the finite
value is never negative and does not increase when an analysis is saved. -/
theorem get_remaining_free_requests_spec (limit : ℤ) (u : Nat) (nowUtc : ℚ)
    (db : DB) (food_name : String) (cal pr fa cb pw t : ℚ) :
    (get_remaining_free_requests limit u nowUtc db).1
      = (if (check_subscription_status u nowUtc db).1 then none
         else some (max 0 (limit - used_requests u db))) ∧
    0 ≤ max 0 (limit - (used_requests u db : ℤ)) ∧
    (get_remaining_free_requests limit u nowUtc
        (save_food_analysis u food_name cal pr fa cb pw t db).2).1
      = (if (check_subscription_status u nowUtc db).1 then none
         else some (max 0 (limit
            - used_requests u (save_food_analysis u food_name cal pr fa cb pw t db).2))) ∧
    used_requests u (save_food_analysis u food_name cal pr fa cb pw t db).2
      = used_requests u db + 1 ∧
    max 0 (limit - (used_requests u (save_food_analysis u food_name cal pr fa cb pw t db).2 : ℤ))
      ≤ max 0 (limit - (used_requests u db : ℤ)) := by
  have hused : used_requests u (save_food_analysis u food_name cal pr fa cb pw t db).2
      = used_requests u db + 1 := by
    simp [used_requests, save_food_analysis, List.filter_append]
  refine ⟨?_, le_max_left _ _, ?_, hused, ?_⟩
  · by_cases h : (check_subscription_status u nowUtc db).1
    · simp [get_remaining_free_requests, h]
    · simp only [Bool.not_eq_true] at h
      simp [get_remaining_free_requests, h]
      rfl
  · have hck : (check_subscription_status u nowUtc
        (save_food_analysis u food_name cal pr fa cb pw t db).2).1
        = (check_subscription_status u nowUtc db).1 := rfl
    by_cases h : (check_subscription_status u nowUtc db).1
    · simp [get_remaining_free_requests, hck, h]
    · simp only [Bool.not_eq_true] at h
      simp [get_remaining_free_requests, hck, h]
      rfl
  · rw [hused]
    have : limit - ((used_requests u db : ℤ) + 1) ≤ limit - (used_requests u db : ℤ) := by
      linarith
    push_cast
    exact max_le_max le_rfl this

/-- C10: `add_subscription(u, m)` stamps `end_date` as the current UTC time
plus `30*m` days (`2592000*m` seconds, calendar-independent), while the
activity check compares against UTC plus 3 hours; hence, starting from an
otherwise empty store, the fresh subscription reads as active at UTC instant
`t` exactly while `t < purchase + 30*m days - 3 hours`. -/
theorem add_subscription_expiry_skew (u : Nat) (months : Nat) (nowUtc t : ℚ)
    (db : DB) (hm : 1 ≤ months) :
    (add_subscription u months nowUtc db).1.end_date = nowUtc + 2592000 * months ∧
    ((check_subscription_status u t (add_subscription u months nowUtc emptyDB).2).1 = true
      ↔ t < nowUtc + 2592000 * months - 10800) := by
  constructor
  · rfl
  · simp only [check_subscription_status, add_subscription, emptyDB]
    by_cases h : t + 10800 < nowUtc + 2592000 * months
    · have hne : ¬ (nowUtc + 2592000 * (months : ℚ) ≤ t + 10800) := by linarith
      simp [isExpiredActive, isCurrentActive, hne]
      constructor
      · intro _; linarith
      · intro _; linarith
    · have hle : nowUtc + 2592000 * (months : ℚ) ≤ t + 10800 := by linarith
      simp [isExpiredActive, isCurrentActive, hle]

/-- Witness for `add_subscription_expiry_skew` at `u = 7`, one month bought at
UTC instant 0, activity probed at instant 0. -/
theorem add_subscription_expiry_skew_witness :
    1 ≤ 1 ∧
    ((add_subscription 7 1 0 emptyDB).1.end_date = 0 + 2592000 * 1 ∧
      ((check_subscription_status 7 0 (add_subscription 7 1 0 emptyDB).2).1 = true
        ↔ (0 : ℚ) < 0 + 2592000 * 1 - 10800)) :=
  ⟨le_refl 1, add_subscription_expiry_skew 7 1 0 0 emptyDB (le_refl 1)⟩

theorem dailyNorms_congr (a b c d e f g h : ℚ) (h1 : a = e) (h2 : b = f)
    (h3 : c = g) (h4 : d = h) :
    DailyNorms.mk a b c d = DailyNorms.mk e f g h := by
  subst h1 h2 h3 h4
  rfl

/-- C5 (amended): `calculate_daily_norms` returns the Mifflin-St Jeor daily
calories and the goal-share macro grams of the claim, each rounded to one
decimal (Python `round(x, 1)`); the macro grams are computed from the
unrounded calories. -/
theorem calculate_daily_norms_eq_spec (gender : Gender)
    (age weight height activity_level : ℚ) (goal : Goal) :
    calculate_daily_norms gender age weight height activity_level goal =
      { daily_calories :=
          pyRound1 (specDailyCalories gender age weight height activity_level goal)
        daily_proteins :=
          pyRound1 (specDailyCalories gender age weight height activity_level goal
            * (specShares goal).1 / 4)
        daily_fats :=
          pyRound1 (specDailyCalories gender age weight height activity_level goal
            * (specShares goal).2.1 / 9)
        daily_carbs :=
          pyRound1 (specDailyCalories gender age weight height activity_level goal
            * (specShares goal).2.2 / 4) } := by
  cases gender <;> cases goal <;>
    simp only [calculate_daily_norms, specDailyCalories, specBMR, specGoalScale,
      specShares] <;>
    exact dailyNorms_congr _ _ _ _ _ _ _ _
      (by congr 1 <;> ring) (by congr 1 <;> ring)
      (by congr 1 <;> ring) (by congr 1 <;> ring)

/-- C5 counterexample: for a female user aged 30, 60 kg, 165 cm, activity
1.375, maintenance goal, the returned `daily_calories` is 1815.3, not the
claimed exact formula value 1815.34375 — the code rounds to one decimal. -/
theorem calculate_daily_norms_not_exact :
    (calculate_daily_norms .female 30 60 165 (1375/1000) .maintenance).daily_calories
        ≠ specDailyCalories .female 30 60 165 (1375/1000) .maintenance ∧
    (calculate_daily_norms .female 30 60 165 (1375/1000) .maintenance).daily_calories
        = 18153/10 ∧
    specDailyCalories .female 30 60 165 (1375/1000) .maintenance = 5809100/3200 := by
  have hspec : specDailyCalories .female 30 60 165 (1375/1000) .maintenance
      = 5809100/3200 := by
    simp only [specDailyCalories, specBMR, specGoalScale]
    norm_num
  have hcalc : (calculate_daily_norms .female 30 60 165 (1375/1000)
      .maintenance).daily_calories = 18153/10 := by
    have hf : ⌊((10 * 60 + 6.25 * 165 - 5 * 30 - 161) * (1375/1000) : ℚ) * 10⌋
        = 18153 := by
      apply Int.floor_eq_iff.mpr
      norm_num
    simp only [calculate_daily_norms, pyRound1, roundHalfEven, hf]
    norm_num
  refine ⟨?_, hcalc, hspec⟩
  rw [hcalc, hspec]
  norm_num

/-! ## Cached food data and portion recomputation (bot.py:1668-1744)

`user_data[uid]['food_data']` is a dict holding the analyzed dish; the keys
read by the portion-size handler and the statistics handler are modelled as
fields (`portion_weight` may be absent, defaulting to 100; `timestamp` may be
absent, which exempts the entry from the janitor's staleness check). -/

structure FoodData where
  name : String
  calories : ℚ
  proteins : ℚ
  fats : ℚ
  carbs : ℚ
  portion_weight : Option ℚ
  timestamp : Option ℚ
  deriving DecidableEq, Repr

/-- The recomputation step of `handle_portion_size` (bot.py:1680-1697):
`ratio = portion_size / old_portion`, each macro becomes
`round(old * ratio, 1)`, and the entered weight is stored back. -/
def handle_portion_size_recompute (fd : FoodData) (portion_size : Nat) : FoodData :=
  let old_portion : ℚ := fd.portion_weight.getD 100
  let ratio : ℚ := (portion_size : ℚ) / old_portion
  { fd with
    calories := pyRound1 (fd.calories * ratio)
    proteins := pyRound1 (fd.proteins * ratio)
    fats := pyRound1 (fd.fats * ratio)
    carbs := pyRound1 (fd.carbs * ratio)
    portion_weight := some (portion_size : ℚ) }

/-- Evaluation rule for `pyRound1` when the scaled value sits strictly below
the rounding midpoint. -/
theorem pyRound1_of_lt_half (x : ℚ) (n : ℤ) (hle : (n : ℚ) ≤ x * 10)
    (hlt : x * 10 < (n : ℚ) + 1/2) : pyRound1 x = (n : ℚ) / 10 := by
  have hfl : ⌊x * 10⌋ = n := by
    apply Int.floor_eq_iff.mpr
    constructor
    · exact hle
    · push_cast; linarith
  simp only [pyRound1, roundHalfEven, hfl]
  rw [if_pos]
  linarith

/-- One scale-up-then-back round trip moves a value by at most two rounding
errors: `|round1(round1(v*r) * (1/r)) - v| ≤ 1/10` whenever `r ≥ 1`. -/
theorem roundtrip_abs_le (v r : ℚ) (hr : 1 ≤ r) :
    |pyRound1 (pyRound1 (v * r) * (1/r)) - v| ≤ 1/10 := by
  have hrpos : (0 : ℚ) < r := by linarith
  have h1 := abs_pyRound1_sub (v * r)
  have h2 := abs_pyRound1_sub (pyRound1 (v * r) * (1/r))
  have h3 : pyRound1 (v * r) * (1/r) - v = (pyRound1 (v * r) - v * r) / r := by
    field_simp
    ring
  have h4 : |pyRound1 (v * r) * (1/r) - v| ≤ 1/20 := by
    rw [h3, abs_div, abs_of_pos hrpos, div_le_iff hrpos]
    nlinarith [abs_nonneg (pyRound1 (v * r) - v * r)]
  have h5 := abs_sub_le (pyRound1 (pyRound1 (v * r) * (1/r)))
    (pyRound1 (v * r) * (1/r)) v
  linarith

theorem pyRound1_zero : pyRound1 0 = 0 := by
  have h := pyRound1_of_lt_half 0 0 (by norm_num) (by norm_num)
  simpa using h

/-- C6 counterexample: starting from a cached dish with fats `0.2` at portion
weight 100 g, recomputing to 3 g and back to 100 g returns fats `0.0`, an
error of `0.2 > 0.1`; the claimed ±0.1 round-trip tolerance fails when the
intermediate weight is smaller than the original. -/
theorem portion_roundtrip_cex :
    |(handle_portion_size_recompute
        (handle_portion_size_recompute
          { name := "x", calories := 1/5, proteins := 1/5, fats := 1/5
            carbs := 1/5, portion_weight := some 100, timestamp := none } 3)
        100).fats
      - (1/5 : ℚ)| > 1/10 := by
  have e1 : pyRound1 ((3 : ℚ)/500) = 0 := by
    have h := pyRound1_of_lt_half ((3:ℚ)/500) 0 (by norm_num) (by norm_num)
    simpa using h
  have e2 : pyRound1 ((1:ℚ)/5 * ((3:ℚ)/100)) = 0 := by
    have : ((1:ℚ)/5 * ((3:ℚ)/100)) = (3:ℚ)/500 := by norm_num
    rw [this, e1]
  simp only [handle_portion_size_recompute, Option.getD_some]
  norm_num [e1, e2, pyRound1_zero]
  rw [abs_of_pos] <;> norm_num

/-- C6 (amended): portion recomputation sets each macro to
`round(old * (new_grams / old_grams), 1)`; and the `W1 → W2 → W1` round trip
restores every macro to within ±0.1 provided the intermediate weight is at
least the original (`W1 ≤ W2`) — scaling down and back can lose more than
0.1, as the counterexample shows. -/
theorem portion_recompute_spec (fd : FoodData) (W1 W2 : Nat)
    (h1 : 0 < W1) (h2 : W1 ≤ W2) (hpw : fd.portion_weight = some (W1 : ℚ)) :
    handle_portion_size_recompute fd W2 =
      { fd with
        calories := pyRound1 (fd.calories * ((W2 : ℚ) / (W1 : ℚ)))
        proteins := pyRound1 (fd.proteins * ((W2 : ℚ) / (W1 : ℚ)))
        fats := pyRound1 (fd.fats * ((W2 : ℚ) / (W1 : ℚ)))
        carbs := pyRound1 (fd.carbs * ((W2 : ℚ) / (W1 : ℚ)))
        portion_weight := some (W2 : ℚ) } ∧
    |(handle_portion_size_recompute (handle_portion_size_recompute fd W2) W1).calories
      - fd.calories| ≤ 1/10 ∧
    |(handle_portion_size_recompute (handle_portion_size_recompute fd W2) W1).proteins
      - fd.proteins| ≤ 1/10 ∧
    |(handle_portion_size_recompute (handle_portion_size_recompute fd W2) W1).fats
      - fd.fats| ≤ 1/10 ∧
    |(handle_portion_size_recompute (handle_portion_size_recompute fd W2) W1).carbs
      - fd.carbs| ≤ 1/10 := by
  have hW1pos : (0 : ℚ) < (W1 : ℚ) := by exact_mod_cast h1
  have hr : 1 ≤ (W2 : ℚ) / (W1 : ℚ) := by
    rw [le_div_iff hW1pos, one_mul]
    exact_mod_cast h2
  have hinv : (W1 : ℚ) / (W2 : ℚ) = 1 / ((W2 : ℚ) / (W1 : ℚ)) := by
    rw [one_div_div]
  have hfield : ∀ v : ℚ,
      |pyRound1 (pyRound1 (v * ((W2 : ℚ) / (W1 : ℚ))) * ((W1 : ℚ) / (W2 : ℚ))) - v|
        ≤ 1/10 := by
    intro v
    rw [hinv]
    exact roundtrip_abs_le v _ hr
  refine ⟨?_, ?_, ?_, ?_, ?_⟩
  · simp only [handle_portion_size_recompute, hpw, Option.getD_some]
  all_goals
    · show |pyRound1 _ - _| ≤ 1/10
      simp only [handle_portion_size_recompute, hpw, Option.getD_some]
      exact hfield _

/-- Witness for `portion_recompute_spec`: a dish at 100 g scaled to 150 g and
back. -/
theorem portion_recompute_spec_witness :
    0 < 100 ∧ 100 ≤ 150 ∧
    (FoodData.mk "d" (5/2) (3/10) (6/5) 10 (some 100) none).portion_weight
      = some ((100 : ℕ) : ℚ) ∧
    (handle_portion_size_recompute
        (FoodData.mk "d" (5/2) (3/10) (6/5) 10 (some 100) none) 150 =
      { FoodData.mk "d" (5/2) (3/10) (6/5) 10 (some 100) none with
        calories := pyRound1 ((FoodData.mk "d" (5/2) (3/10) (6/5) 10 (some 100) none).calories
          * (((150 : ℕ) : ℚ) / ((100 : ℕ) : ℚ)))
        proteins := pyRound1 ((FoodData.mk "d" (5/2) (3/10) (6/5) 10 (some 100) none).proteins
          * (((150 : ℕ) : ℚ) / ((100 : ℕ) : ℚ)))
        fats := pyRound1 ((FoodData.mk "d" (5/2) (3/10) (6/5) 10 (some 100) none).fats
          * (((150 : ℕ) : ℚ) / ((100 : ℕ) : ℚ)))
        carbs := pyRound1 ((FoodData.mk "d" (5/2) (3/10) (6/5) 10 (some 100) none).carbs
          * (((150 : ℕ) : ℚ) / ((100 : ℕ) : ℚ)))
        portion_weight := some ((150 : ℕ) : ℚ) } ∧
    |(handle_portion_size_recompute (handle_portion_size_recompute
        (FoodData.mk "d" (5/2) (3/10) (6/5) 10 (some 100) none) 150) 100).calories
      - (FoodData.mk "d" (5/2) (3/10) (6/5) 10 (some 100) none).calories| ≤ 1/10 ∧
    |(handle_portion_size_recompute (handle_portion_size_recompute
        (FoodData.mk "d" (5/2) (3/10) (6/5) 10 (some 100) none) 150) 100).proteins
      - (FoodData.mk "d" (5/2) (3/10) (6/5) 10 (some 100) none).proteins| ≤ 1/10 ∧
    |(handle_portion_size_recompute (handle_portion_size_recompute
        (FoodData.mk "d" (5/2) (3/10) (6/5) 10 (some 100) none) 150) 100).fats
      - (FoodData.mk "d" (5/2) (3/10) (6/5) 10 (some 100) none).fats| ≤ 1/10 ∧
    |(handle_portion_size_recompute (handle_portion_size_recompute
        (FoodData.mk "d" (5/2) (3/10) (6/5) 10 (some 100) none) 150) 100).carbs
      - (FoodData.mk "d" (5/2) (3/10) (6/5) 10 (some 100) none).carbs| ≤ 1/10) :=
  ⟨by norm_num, by norm_num, by norm_num,
    portion_recompute_spec (FoodData.mk "d" (5/2) (3/10) (6/5) 10 (some 100) none)
      100 150 (by norm_num) (by norm_num) (by norm_num)⟩

/-! ## Subscription reconciler (`cleanup_expired_subscriptions`, bot.py:219-296)

`notification_cache` is a dict read only through `.get(user_id, 0)`; it is
modelled as a total function `Nat → ℚ` defaulting to 0, and purging an entry
resets it to the default.  `current_time = time.time()` and
`datetime.utcnow()` denote the same instant `nowUtc`. -/

/-- The notification loop (bot.py:254-283): for each owning user of a
just-expired subscription, send only if the last notification is more than
23 hours (82800 s) old, and record the send time in the cache.  Returns the
updated cache and the users notified, in order. -/
def notify_loop (nowUtc : ℚ) : List Nat → (Nat → ℚ) → (Nat → ℚ) × List Nat
  | [], cache => (cache, [])
  | v :: rest, cache =>
    if nowUtc - cache v > 82800 then
      let r := notify_loop nowUtc rest (Function.update cache v nowUtc)
      (r.1, v :: r.2)
    else
      notify_loop nowUtc rest cache

/-- One reconciler cycle (bot.py:219-296): query all expired-but-active
subscriptions (early return when none, skipping the purge), deactivate them
and commit, run the notification loop, then purge cache entries 48 hours
(172800 s) old or older.  Returns the committed store, the purged cache and
the list of users notified. -/
def cleanup_expired_subscriptions (nowUtc : ℚ) (db : DB) (cache : Nat → ℚ) :
    DB × (Nat → ℚ) × List Nat :=
  let nowMsk := nowUtc + 10800
  let expired := db.subs.filter fun s => s.is_active && decide (s.end_date ≤ nowMsk)
  if expired.isEmpty then (db, cache, [])
  else
    let subs' := db.subs.map fun s =>
      if s.is_active && decide (s.end_date ≤ nowMsk) then { s with is_active := false }
      else s
    let r := notify_loop nowUtc (expired.map (·.user_id)) cache
    let cache' := fun uid => if nowUtc - r.1 uid < 172800 then r.1 uid else 0
    ({ db with subs := subs' }, cache', r.2)

/-- Core invariants of the notification loop: at most one send per user and
cycle; a send stamps the cache with the send time; no send leaves the user's
entry untouched; a user whose entry is not yet 23 hours old is never sent. -/
theorem notify_loop_spec (nowUtc : ℚ) (users : List Nat) (cache : Nat → ℚ)
    (u : Nat) :
    (notify_loop nowUtc users cache).2.count u ≤ 1 ∧
    (u ∈ (notify_loop nowUtc users cache).2 →
      (notify_loop nowUtc users cache).1 u = nowUtc) ∧
    (u ∉ (notify_loop nowUtc users cache).2 →
      (notify_loop nowUtc users cache).1 u = cache u) ∧
    (¬ (nowUtc - cache u > 82800) → u ∉ (notify_loop nowUtc users cache).2) := by
  induction users generalizing cache with
  | nil => simp [notify_loop]
  | cons v rest ih =>
    by_cases hv : nowUtc - cache v > 82800
    · simp only [notify_loop, if_pos hv]
      by_cases huv : u = v
      · subst huv
        rcases ih (Function.update cache u nowUtc) with ⟨ihc, ih1, ih2, ih3⟩
        have hnotail : u ∉ (notify_loop nowUtc rest (Function.update cache u nowUtc)).2 := by
          apply ih3
          rw [Function.update_same]
          norm_num
        refine ⟨?_, ?_, ?_, ?_⟩
        · simp only [List.count_cons_self]
          have : (notify_loop nowUtc rest (Function.update cache u nowUtc)).2.count u = 0 :=
            List.count_eq_zero.mpr hnotail
          omega
        · intro _
          rw [ih2 hnotail, Function.update_same]
        · intro hmem
          exact absurd (List.mem_cons_self _ _) hmem
        · intro hc
          exact absurd hv hc
      · rcases ih (Function.update cache v nowUtc) with ⟨ihc, ih1, ih2, ih3⟩
        have hupd : Function.update cache v nowUtc u = cache u :=
          Function.update_noteq huv _ _
        refine ⟨?_, ?_, ?_, ?_⟩
        · rw [List.count_cons_of_ne (by simpa using huv)]
          exact ihc
        · intro hmem
          rcases List.mem_cons.mp hmem with h | h
          · exact absurd h huv
          · exact ih1 h
        · intro hmem
          have : u ∉ (notify_loop nowUtc rest (Function.update cache v nowUtc)).2 := by
            intro h
            exact hmem (List.mem_cons_of_mem _ h)
          rw [ih2 this, hupd]
        · intro hc
          intro hmem
          rcases List.mem_cons.mp hmem with h | h
          · exact huv h
          · exact ih3 (by rwa [hupd]) h
    · simp only [notify_loop, if_neg hv]
      by_cases huv : u = v
      · subst huv
        rcases ih cache with ⟨ihc, ih1, ih2, ih3⟩
        exact ⟨ihc, ih1, ih2, fun hc => ih3 hc⟩
      · exact ih cache

/-- One reconciler cycle sends at most one notification per user, stamps the
purged cache with the send time for notified users, and never notifies a user
whose cache entry is not yet 23 hours old. -/
theorem cleanup_cycle_spec (nowUtc : ℚ) (db : DB) (cache : Nat → ℚ) (u : Nat) :
    (cleanup_expired_subscriptions nowUtc db cache).2.2.count u ≤ 1 ∧
    (u ∈ (cleanup_expired_subscriptions nowUtc db cache).2.2 →
      (cleanup_expired_subscriptions nowUtc db cache).2.1 u = nowUtc) ∧
    (¬ (nowUtc - cache u > 82800) →
      u ∉ (cleanup_expired_subscriptions nowUtc db cache).2.2) := by
  unfold cleanup_expired_subscriptions
  by_cases he : (db.subs.filter
      fun s => s.is_active && decide (s.end_date ≤ nowUtc + 10800)).isEmpty
  · simp [he]
  · simp only [if_neg he]
    rcases notify_loop_spec nowUtc
      ((db.subs.filter
        fun s => s.is_active && decide (s.end_date ≤ nowUtc + 10800)).map
          (·.user_id)) cache u with ⟨hc, h1, _, h3⟩
    refine ⟨hc, ?_, h3⟩
    intro hmem
    rw [h1 hmem]
    norm_num

/-- C3: across two reconciler cycles whose send instants are less than
23 hours (82800 s) apart — the dedupe cache flowing from the first cycle into
the second, the subscription table arbitrary in each — at most one renewal
notification reaches any given user: a send requires the user's cache entry
to be more than 23 hours old, the send time is recorded in the cache, and the
48-hour (172800 s) purge never clears an entry young enough to matter inside
the 23-hour window. -/
theorem renewal_notification_once_per_window (u : Nat) (db1 db2 : DB)
    (cache : Nat → ℚ) (t1 t2 : ℚ) (h1 : t1 ≤ t2) (h2 : t2 - t1 < 82800) :
    (cleanup_expired_subscriptions t1 db1 cache).2.2.count u
      + (cleanup_expired_subscriptions t2 db2
          (cleanup_expired_subscriptions t1 db1 cache).2.1).2.2.count u ≤ 1 := by
  rcases cleanup_cycle_spec t1 db1 cache u with ⟨c1, s1, _⟩
  rcases cleanup_cycle_spec t2 db2
    (cleanup_expired_subscriptions t1 db1 cache).2.1 u with ⟨c2, _, n2⟩
  by_cases hu : u ∈ (cleanup_expired_subscriptions t1 db1 cache).2.2
  · have hc := s1 hu
    have hnot : u ∉ (cleanup_expired_subscriptions t2 db2
        (cleanup_expired_subscriptions t1 db1 cache).2.1).2.2 := by
      apply n2
      rw [hc]
      linarith
    have hz := List.count_eq_zero.mpr hnot
    omega
  · have hz := List.count_eq_zero.mpr hu
    omega

/-- Witness for `renewal_notification_once_per_window`: two cycles one hour
apart over an empty store and cold cache. -/
theorem renewal_notification_once_per_window_witness :
    (0 : ℚ) ≤ 3600 ∧ (3600 : ℚ) - 0 < 82800 ∧
    (cleanup_expired_subscriptions 0 emptyDB (fun _ => 0)).2.2.count 5
      + (cleanup_expired_subscriptions 3600 emptyDB
          (cleanup_expired_subscriptions 0 emptyDB (fun _ => 0)).2.1).2.2.count 5 ≤ 1 :=
  ⟨by norm_num, by norm_num,
    renewal_notification_once_per_window 5 emptyDB emptyDB (fun _ => 0) 0 3600
      (by norm_num) (by norm_num)⟩

/-! ## In-memory session store (`user_data`, bot.py)

A `user_data[uid]` dict is modelled as a `SessionRecord`: `last_activity`
(records that never had one get the janitor's `.get('last_activity', 0)`
default, i.e. `0`), the cached `food_data`, the set of `temp_`-prefixed
scratch keys, the set of message ids `m` for which the
`added_to_stats_{m}` flag is set, the saved `analysis_id`, and the remaining
persistent fields (profile draft entries) as name-value pairs.  The store is
an association list with distinct keys (a Python dict). -/

structure SessionRecord where
  last_activity : ℚ
  food_data : Option FoodData
  temp_keys : List String
  added_to_stats : List Nat
  analysis_id : Option Nat
  profile : List (String × ℚ)
  deriving DecidableEq, Repr

abbrev Store := List (Nat × SessionRecord)

/-- Per-record cleaning for sessions the janitor keeps (bot.py:145-161):
drop `temp_`/`added_to_stats_` keys, and drop `food_data` when it carries a
timestamp more than one hour old; everything else is preserved. -/
def clean_record (nowT : ℚ) (r : SessionRecord) : SessionRecord :=
  { r with
    temp_keys := []
    added_to_stats := []
    food_data :=
      match r.food_data with
      | some fd =>
        match fd.timestamp with
        | some ts => if nowT - ts > 3600 then none else some fd
        | none => some fd
      | none => none }

/-- Phase 1 + 2 of a janitor cycle (bot.py:132-169): drop sessions older than
`USER_DATA_MAX_AGE` (7200 s), clean the survivors. -/
def cleaned_records (nowT : ℚ) (store : Store) : Store :=
  (store.filter fun p => decide (nowT - p.2.last_activity ≤ 7200)).map
    fun p => (p.1, clean_record nowT p.2)

/-- The ids force-evicted by the capacity phase (bot.py:171-188): when the
survivor count still exceeds `USER_DATA_MAX_SIZE` (10000), the coldest 20%
(`int(len * 0.2)` = `len / 5`) by ascending `last_activity` (Python's stable
`sorted`). -/
def forced_evicted_ids (nowT : ℚ) (store : Store) : List Nat :=
  let cleaned := cleaned_records nowT store
  if cleaned.length > 10000 then
    ((cleaned.mergeSort fun a b => decide (a.2.last_activity ≤ b.2.last_activity)).take
      (cleaned.length / 5)).map Prod.fst
  else []

/-- One janitor cycle of `cleanup_user_data` (bot.py:114-217). -/
def cleanup_user_data (nowT : ℚ) (store : Store) : Store :=
  (cleaned_records nowT store).filter
    fun p => decide (p.1 ∉ forced_evicted_ids nowT store)

/-- Outcome reported by the add-to-statistics callback. -/
inductive AddStatsOutcome | notFound | alreadyAdded | saved
  deriving DecidableEq, Repr

/-- The session-store write of a successful save (bot.py:2158-2160): the
caller's record gains the per-message flag and the saved analysis id. -/
def set_added_flag (u msgId aid : Nat) : Store → Store
  | [] => []
  | (k, v) :: rest =>
    if k = u then
      (k, { v with
        added_to_stats := msgId :: v.added_to_stats
        analysis_id := some aid }) :: set_added_flag u msgId aid rest
    else (k, v) :: set_added_flag u msgId aid rest

/-- Translation of `add_stats_callback` (bot.py:2119-2202): no cached
`food_data` → "data not found"; per-message flag already set → "already
added", nothing saved; otherwise persist one `FoodAnalysis` row at local time
(UTC+3) and set the flag. -/
def add_stats_callback (u msgId : Nat) (nowUtc : ℚ) (store : Store) (db : DB) :
    AddStatsOutcome × Store × DB :=
  match store.lookup u with
  | none => (.notFound, store, db)
  | some r =>
    match r.food_data with
    | none => (.notFound, store, db)
    | some fd =>
      if msgId ∈ r.added_to_stats then (.alreadyAdded, store, db)
      else
        let s := save_food_analysis u fd.name fd.calories fd.proteins fd.fats fd.carbs
          (fd.portion_weight.getD 100) (nowUtc + 10800) db
        (.saved, set_added_flag u msgId s.1 store, s.2)

theorem lookup_set_added_flag_self (u msgId aid : Nat) (store : Store) :
    (set_added_flag u msgId aid store).lookup u
      = (store.lookup u).map fun r =>
          { r with added_to_stats := msgId :: r.added_to_stats
                   analysis_id := some aid } := by
  induction store with
  | nil => rfl
  | cons p rest ih =>
    obtain ⟨k, v⟩ := p
    by_cases hk : k = u
    · subst hk
      simp [set_added_flag, List.lookup]
    · have h1 : (u == k) = false := beq_eq_false_iff_ne.mpr (Ne.symm hk)
      simp only [set_added_flag, if_neg hk, List.lookup, h1]
      exact ih

/-- C4 (amended): pressing "add to statistics" twice for the same result
message, with no janitor cycle in between, persists exactly one row: the
second invocation never changes the analyses table, the first adds exactly
one row when it reports success, and the second reports "already added"
whenever the first found data.  (A janitor cycle between the presses strips
the `added_to_stats_` flag and breaks this — see the counterexample.) -/
theorem add_stats_idempotent_without_janitor (u m : Nat) (t1 t2 : ℚ)
    (store : Store) (db : DB) :
    (add_stats_callback u m t2 (add_stats_callback u m t1 store db).2.1
        (add_stats_callback u m t1 store db).2.2).2.2.analyses
      = (add_stats_callback u m t1 store db).2.2.analyses ∧
    (add_stats_callback u m t1 store db).2.2.analyses.length
      = db.analyses.length
        + (if (add_stats_callback u m t1 store db).1 = .saved then 1 else 0) ∧
    (add_stats_callback u m t2 (add_stats_callback u m t1 store db).2.1
        (add_stats_callback u m t1 store db).2.2).1
      = (if (add_stats_callback u m t1 store db).1 = .notFound
         then .notFound else .alreadyAdded) := by
  rcases hlk : store.lookup u with _ | r
  · simp [add_stats_callback, hlk]
  · rcases hfd : r.food_data with _ | fd
    · simp [add_stats_callback, hlk, hfd]
    · by_cases hm : m ∈ r.added_to_stats
      · simp [add_stats_callback, hlk, hfd, hm]
      · have hlk2 := lookup_set_added_flag_self u m (db.analyses.length + 1) store
        rw [hlk] at hlk2
        simp [add_stats_callback, hlk, hfd, hm, hlk2, save_food_analysis]

/-- C4 counterexample: press "add to statistics" at t=10000 (one row saved),
run one janitor cycle at t=10600 (the session survives, but the janitor
strips the `added_to_stats_` flag while the still-fresh `food_data` is kept),
press again for the same message at t=10600 — a second row for the same
analysis is persisted, so the two presses yield two rows, not one. -/
theorem add_stats_janitor_cex :
    (add_stats_callback 1 5 10600
        (cleanup_user_data 10600
          (add_stats_callback 1 5 10000
            [(1, SessionRecord.mk 10000
              (some (FoodData.mk "x" 1 1 1 1 (some 100) (some 10000)))
              [] [] none [])]
            emptyDB).2.1)
        (add_stats_callback 1 5 10000
          [(1, SessionRecord.mk 10000
            (some (FoodData.mk "x" 1 1 1 1 (some 100) (some 10000)))
            [] [] none [])]
          emptyDB).2.2).2.2.analyses.length = 2 ∧
    (add_stats_callback 1 5 10600
        (cleanup_user_data 10600
          (add_stats_callback 1 5 10000
            [(1, SessionRecord.mk 10000
              (some (FoodData.mk "x" 1 1 1 1 (some 100) (some 10000)))
              [] [] none [])]
            emptyDB).2.1)
        (add_stats_callback 1 5 10000
          [(1, SessionRecord.mk 10000
            (some (FoodData.mk "x" 1 1 1 1 (some 100) (some 10000)))
            [] [] none [])]
          emptyDB).2.2).2.2.analyses.length ≠ 1 := by
  have h1 : add_stats_callback 1 5 10000
      [(1, SessionRecord.mk 10000
        (some (FoodData.mk "x" 1 1 1 1 (some 100) (some 10000)))
        [] [] none [])] emptyDB
      = (.saved,
        [(1, SessionRecord.mk 10000
          (some (FoodData.mk "x" 1 1 1 1 (some 100) (some 10000)))
          [] [5] (some 1) [])],
        { subs := [], analyses := [FoodAnalysisRow.mk 1 "x" 1 1 1 1 100 20800
            (determine_meal_type 20800)] }) := by
    simp [add_stats_callback, List.lookup, set_added_flag, save_food_analysis, emptyDB]
    norm_num
  rw [h1]
  have h2 : cleanup_user_data 10600
      [(1, SessionRecord.mk 10000
        (some (FoodData.mk "x" 1 1 1 1 (some 100) (some 10000)))
        [] [5] (some 1) [])]
      = [(1, SessionRecord.mk 10000
          (some (FoodData.mk "x" 1 1 1 1 (some 100) (some 10000)))
          [] [] (some 1) [])] := by
    simp [cleanup_user_data, cleaned_records, forced_evicted_ids, clean_record]
    norm_num
  rw [h2]
  simp [add_stats_callback, List.lookup, set_added_flag, save_food_analysis]


theorem cleaned_records_lookup_of_not_mem (nowT : ℚ) (store : Store) (u : Nat)
    (hu : u ∉ store.map Prod.fst) :
    (cleaned_records nowT store).lookup u = none := by
  induction store with
  | nil => rfl
  | cons p rest ih =>
    obtain ⟨k, v⟩ := p
    simp only [List.map_cons, List.mem_cons, not_or] at hu
    obtain ⟨hne, hrest⟩ := hu
    have h1 : (u == k) = false := beq_eq_false_iff_ne.mpr hne
    by_cases hkeep : nowT - v.last_activity ≤ 7200
    · simp only [cleaned_records, List.filter_cons]
      rw [if_pos (by simpa using hkeep)]
      simp only [List.map_cons, List.lookup, h1]
      simpa only [cleaned_records] using ih hrest
    · simp only [cleaned_records, List.filter_cons]
      rw [if_neg (by simpa using hkeep)]
      simpa only [cleaned_records] using ih hrest

theorem cleaned_records_lookup (nowT : ℚ) (store : Store) (u : Nat)
    (r : SessionRecord) (hmem : (u, r) ∈ store)
    (hnodup : (store.map Prod.fst).Nodup) :
    (cleaned_records nowT store).lookup u
      = (if nowT - r.last_activity ≤ 7200 then some (clean_record nowT r)
         else none) := by
  induction store with
  | nil => simp at hmem
  | cons p rest ih =>
    obtain ⟨k, v⟩ := p
    simp only [List.map_cons, List.nodup_cons] at hnodup
    obtain ⟨hknotin, hndrest⟩ := hnodup
    rcases List.mem_cons.mp hmem with heq | hmemrest
    · have hu : u = k := congrArg Prod.fst heq
      have hv : r = v := congrArg Prod.snd heq
      subst hu
      subst hv
      by_cases hkeep : nowT - r.last_activity ≤ 7200
      · simp only [cleaned_records, List.filter_cons]
        rw [if_pos (by simpa using hkeep)]
        simp only [List.map_cons, List.lookup, beq_self_eq_true]
        rw [if_pos hkeep]
      · simp only [cleaned_records, List.filter_cons]
        rw [if_neg (by simpa using hkeep), if_neg hkeep]
        exact cleaned_records_lookup_of_not_mem nowT rest u hknotin
    · have hne : u ≠ k := by
        intro h
        subst h
        exact hknotin (List.mem_map_of_mem Prod.fst hmemrest)
      have h1 : (u == k) = false := beq_eq_false_iff_ne.mpr hne
      by_cases hkeep : nowT - v.last_activity ≤ 7200
      · simp only [cleaned_records, List.filter_cons]
        rw [if_pos (by simpa using hkeep)]
        simp only [List.map_cons, List.lookup, h1]
        simpa only [cleaned_records] using ih hmemrest hndrest
      · simp only [cleaned_records, List.filter_cons]
        rw [if_neg (by simpa using hkeep)]
        simpa only [cleaned_records] using ih hmemrest hndrest

theorem filter_not_mem_lookup (l : Store) (ev : List Nat) (u : Nat) :
    ((l.filter fun p => decide (p.1 ∉ ev)).lookup u)
      = (if u ∈ ev then none else l.lookup u) := by
  induction l with
  | nil => by_cases h : u ∈ ev <;> simp [h]
  | cons p rest ih =>
    obtain ⟨k, v⟩ := p
    by_cases hk : k ∈ ev
    · rw [List.filter_cons, if_neg (by simpa using hk)]
      rw [ih]
      by_cases hu : u ∈ ev
      · simp [hu]
      · have hne : u ≠ k := fun h => hu (h ▸ hk)
        have h1 : (u == k) = false := beq_eq_false_iff_ne.mpr hne
        simp [hu, List.lookup, h1]
    · rw [List.filter_cons, if_pos (by simpa using hk)]
      by_cases huk : u = k
      · subst huk
        simp [List.lookup, hk]
      · have h1 : (u == k) = false := beq_eq_false_iff_ne.mpr huk
        simp only [List.lookup, h1]
        exact ih

theorem cleaned_records_keys (nowT : ℚ) (store : Store) :
    (cleaned_records nowT store).map Prod.fst
      = (store.filter fun p => decide (nowT - p.2.last_activity ≤ 7200)).map Prod.fst := by
  simp only [cleaned_records, List.map_map]
  rfl

theorem cleaned_records_keys_nodup (nowT : ℚ) (store : Store)
    (hnodup : (store.map Prod.fst).Nodup) :
    ((cleaned_records nowT store).map Prod.fst).Nodup := by
  rw [cleaned_records_keys]
  exact hnodup.sublist ((store.filter_sublist).map Prod.fst)

theorem filter_not_mem_take_length (l sorted : Store) (hperm : sorted.Perm l)
    (hkeys : (l.map Prod.fst).Nodup) (k : Nat) (hk : k ≤ sorted.length) :
    (l.filter fun p => decide (p.1 ∉ (sorted.take k).map Prod.fst)).length
      = l.length - k := by
  have hkeysS : (sorted.map Prod.fst).Nodup := (hperm.map Prod.fst).nodup_iff.mpr hkeys
  have hlenf : (l.filter fun p => decide (p.1 ∉ (sorted.take k).map Prod.fst)).length
      = l.countP fun p => decide (p.1 ∉ (sorted.take k).map Prod.fst) :=
    (@List.countP_eq_length_filter _ _ l).symm
  have hsplitkeys : sorted.map Prod.fst
      = (sorted.take k).map Prod.fst ++ (sorted.drop k).map Prod.fst := by
    rw [← List.map_append, List.take_append_drop]
  have hdisj : ((sorted.take k).map Prod.fst).Disjoint ((sorted.drop k).map Prod.fst) := by
    rw [hsplitkeys] at hkeysS
    exact (List.nodup_append.mp hkeysS).2.2
  have hcl : (l.countP fun p => decide (p.1 ∈ (sorted.take k).map Prod.fst))
      = sorted.countP fun p => decide (p.1 ∈ (sorted.take k).map Prod.fst) :=
    (hperm.countP_eq _).symm
  have htake : ((sorted.take k).countP
      fun p => decide (p.1 ∈ (sorted.take k).map Prod.fst)) = k := by
    rw [List.countP_eq_length.mpr]
    · rw [List.length_take]
      omega
    · intro a ha
      simpa using List.mem_map_of_mem Prod.fst ha
  have hdrop : ((sorted.drop k).countP
      fun p => decide (p.1 ∈ (sorted.take k).map Prod.fst)) = 0 := by
    rw [List.countP_eq_zero]
    intro a ha
    simp only [decide_eq_true_eq]
    intro hin
    exact hdisj hin (List.mem_map_of_mem Prod.fst ha)
  have hsorted : ((sorted.take k ++ sorted.drop k).countP
      fun p => decide (p.1 ∈ (sorted.take k).map Prod.fst)) = k := by
    rw [List.countP_append, htake, hdrop]
    omega
  rw [List.take_append_drop] at hsorted
  have hsum := @List.length_eq_countP_add_countP _
    (fun p => decide (p.1 ∈ (sorted.take k).map Prod.fst)) l
  have hcongr : (l.countP fun p => decide (p.1 ∉ (sorted.take k).map Prod.fst))
      = l.countP fun a =>
          ¬ (decide (a.1 ∈ (sorted.take k).map Prod.fst)) := by
    apply List.countP_congr
    intro a _
    simp
  rw [hlenf, hcongr]
  omega

theorem cleanup_user_data_length (nowT : ℚ) (store : Store)
    (hnodup : (store.map Prod.fst).Nodup) :
    (cleanup_user_data nowT store).length
      = (if 10000 < (cleaned_records nowT store).length
         then (cleaned_records nowT store).length
            - (cleaned_records nowT store).length / 5
         else (cleaned_records nowT store).length) := by
  by_cases hcap : 10000 < (cleaned_records nowT store).length
  · rw [if_pos hcap]
    have hperm := List.mergeSort_perm (cleaned_records nowT store)
      (fun a b => decide (a.2.last_activity ≤ b.2.last_activity))
    have hkeys := cleaned_records_keys_nodup nowT store hnodup
    have hk : (cleaned_records nowT store).length / 5
        ≤ ((cleaned_records nowT store).mergeSort
            fun a b => decide (a.2.last_activity ≤ b.2.last_activity)).length := by
      rw [hperm.length_eq]
      omega
    have hmain := filter_not_mem_take_length (cleaned_records nowT store) _ hperm hkeys _ hk
    have hev : forced_evicted_ids nowT store
        = (((cleaned_records nowT store).mergeSort
            fun a b => decide (a.2.last_activity ≤ b.2.last_activity)).take
              ((cleaned_records nowT store).length / 5)).map Prod.fst := by
      unfold forced_evicted_ids
      rw [if_pos hcap]
    unfold cleanup_user_data
    rw [hev]
    exact hmain
  · rw [if_neg hcap]
    have hev : forced_evicted_ids nowT store = [] := by
      unfold forced_evicted_ids
      rw [if_neg hcap]
    unfold cleanup_user_data
    rw [hev]
    simp

theorem cleanup_user_data_coldest (nowT : ℚ) (store : Store)
    (hcap : 10000 < (cleaned_records nowT store).length)
    (e kp : Nat × SessionRecord)
    (he : e ∈ ((cleaned_records nowT store).mergeSort
        fun a b => decide (a.2.last_activity ≤ b.2.last_activity)).take
          ((cleaned_records nowT store).length / 5))
    (hkp : kp ∈ cleanup_user_data nowT store) :
    e.2.last_activity ≤ kp.2.last_activity := by
  have hperm := List.mergeSort_perm (cleaned_records nowT store)
    (fun a b => decide (a.2.last_activity ≤ b.2.last_activity))
  have hpair := @List.sorted_mergeSort (Nat × SessionRecord)
    (fun a b => decide (a.2.last_activity ≤ b.2.last_activity))
    (by
      intro a b c hab hbc
      simp only [decide_eq_true_eq] at *
      exact le_trans hab hbc)
    (by
      intro a b
      simp only [Bool.or_eq_true, decide_eq_true_eq]
      exact le_total _ _)
    (cleaned_records nowT store)
  have hsplit := List.take_append_drop
    ((cleaned_records nowT store).length / 5)
    ((cleaned_records nowT store).mergeSort
      fun a b => decide (a.2.last_activity ≤ b.2.last_activity))
  rw [← hsplit] at hpair
  have hcross := (List.pairwise_append.mp hpair).2.2
  have hev : forced_evicted_ids nowT store
      = (((cleaned_records nowT store).mergeSort
          fun a b => decide (a.2.last_activity ≤ b.2.last_activity)).take
            ((cleaned_records nowT store).length / 5)).map Prod.fst := by
    unfold forced_evicted_ids
    rw [if_pos hcap]
  unfold cleanup_user_data at hkp
  rw [hev] at hkp
  rcases List.mem_filter.mp hkp with ⟨hkpc, hkpnot⟩
  have hkpnot' : kp.1 ∉ (((cleaned_records nowT store).mergeSort
      fun a b => decide (a.2.last_activity ≤ b.2.last_activity)).take
        ((cleaned_records nowT store).length / 5)).map Prod.fst := by
    simpa using hkpnot
  have hkps : kp ∈ ((cleaned_records nowT store).mergeSort
      fun a b => decide (a.2.last_activity ≤ b.2.last_activity)) :=
    (hperm.mem_iff).mpr hkpc
  rw [← hsplit] at hkps
  rcases List.mem_append.mp hkps with hkt | hkd
  · exact absurd (List.mem_map_of_mem Prod.fst hkt) hkpnot'
  · have := hcross e he kp hkd
    simpa using this

/-- C9: one janitor cycle drops every session older than 2 hours
(7200 s), keeps every session touched within 2 hours unless it falls in the
capacity eviction, strips only the `temp_`/`added_to_stats_` keys and cached
food data older than 1 hour (3600 s) from kept sessions while preserving
`last_activity` and the profile fields, leaves
`survivors - survivors/5` records when the survivor count exceeds the hard
cap of 10000 (evicting 20%), and every force-evicted record is at least as
cold as every kept record. -/
theorem cleanup_user_data_spec (nowT : ℚ) (store : Store) (u : Nat)
    (r : SessionRecord) (fd : FoodData) (ts : ℚ)
    (hmem : (u, r) ∈ store) (hnodup : (store.map Prod.fst).Nodup)
    (hfd : r.food_data = some fd) (hts : fd.timestamp = some ts) :
    (cleanup_user_data nowT store).lookup u
      = (if u ∈ forced_evicted_ids nowT store then none
         else if nowT - r.last_activity ≤ 7200 then some (clean_record nowT r)
         else none) ∧
    (clean_record nowT r).last_activity = r.last_activity ∧
    (clean_record nowT r).profile = r.profile ∧
    (clean_record nowT r).temp_keys = [] ∧
    (clean_record nowT r).added_to_stats = [] ∧
    (clean_record nowT r).food_data = (if nowT - ts > 3600 then none else some fd) ∧
    (cleanup_user_data nowT store).length
      = (if 10000 < (cleaned_records nowT store).length
         then (cleaned_records nowT store).length
            - (cleaned_records nowT store).length / 5
         else (cleaned_records nowT store).length) ∧
    (if 10000 < (cleaned_records nowT store).length
     then (((cleaned_records nowT store).mergeSort
         fun a b => decide (a.2.last_activity ≤ b.2.last_activity)).take
           ((cleaned_records nowT store).length / 5)).all
         fun e => (cleanup_user_data nowT store).all
           fun kp => decide (e.2.last_activity ≤ kp.2.last_activity)
     else true) = true := by
  refine ⟨?_, rfl, rfl, rfl, rfl, ?_, cleanup_user_data_length nowT store hnodup, ?_⟩
  · unfold cleanup_user_data
    rw [filter_not_mem_lookup, cleaned_records_lookup nowT store u r hmem hnodup]
  · simp [clean_record, hfd, hts]
  · by_cases hcap : 10000 < (cleaned_records nowT store).length
    · rw [if_pos hcap]
      rw [List.all_eq_true]
      intro e he
      rw [List.all_eq_true]
      intro kp hkp
      rw [decide_eq_true_eq]
      exact cleanup_user_data_coldest nowT store hcap e kp he hkp
    · rw [if_neg hcap]

/-- Witness for `cleanup_user_data_spec`: a single session touched 600 s
(10 minutes) before the cycle, with hour-old-or-fresher cached food data. -/
theorem cleanup_user_data_spec_witness :
    ((1, SessionRecord.mk 9400
        (some (FoodData.mk "x" 1 1 1 1 none (some 9000))) [] [] none [])
      ∈ [(1, SessionRecord.mk 9400
        (some (FoodData.mk "x" 1 1 1 1 none (some 9000))) [] [] none [])]) ∧
    (([(1, SessionRecord.mk 9400
        (some (FoodData.mk "x" 1 1 1 1 none (some 9000))) [] [] none [])].map
          Prod.fst).Nodup) ∧
    ((SessionRecord.mk 9400
        (some (FoodData.mk "x" 1 1 1 1 none (some 9000))) [] [] none []).food_data
      = some (FoodData.mk "x" 1 1 1 1 none (some 9000))) ∧
    ((FoodData.mk "x" 1 1 1 1 none (some 9000)).timestamp = some 9000) ∧
    ((cleanup_user_data 10000 [(1, SessionRecord.mk 9400
        (some (FoodData.mk "x" 1 1 1 1 none (some 9000))) [] [] none [])]).lookup 1
      = (if 1 ∈ forced_evicted_ids 10000 [(1, SessionRecord.mk 9400
            (some (FoodData.mk "x" 1 1 1 1 none (some 9000))) [] [] none [])]
         then none
         else if (10000 : ℚ) - 9400 ≤ 7200
         then some (clean_record 10000 (SessionRecord.mk 9400
            (some (FoodData.mk "x" 1 1 1 1 none (some 9000))) [] [] none []))
         else none) ∧
    (clean_record 10000 (SessionRecord.mk 9400
        (some (FoodData.mk "x" 1 1 1 1 none (some 9000))) [] [] none [])).last_activity
      = 9400 ∧
    (clean_record 10000 (SessionRecord.mk 9400
        (some (FoodData.mk "x" 1 1 1 1 none (some 9000))) [] [] none [])).profile
      = [] ∧
    (clean_record 10000 (SessionRecord.mk 9400
        (some (FoodData.mk "x" 1 1 1 1 none (some 9000))) [] [] none [])).temp_keys
      = [] ∧
    (clean_record 10000 (SessionRecord.mk 9400
        (some (FoodData.mk "x" 1 1 1 1 none (some 9000))) [] [] none [])).added_to_stats
      = [] ∧
    (clean_record 10000 (SessionRecord.mk 9400
        (some (FoodData.mk "x" 1 1 1 1 none (some 9000))) [] [] none [])).food_data
      = (if (10000 : ℚ) - 9000 > 3600 then none
         else some (FoodData.mk "x" 1 1 1 1 none (some 9000))) ∧
    (cleanup_user_data 10000 [(1, SessionRecord.mk 9400
        (some (FoodData.mk "x" 1 1 1 1 none (some 9000))) [] [] none [])]).length
      = (if 10000 < (cleaned_records 10000 [(1, SessionRecord.mk 9400
            (some (FoodData.mk "x" 1 1 1 1 none (some 9000))) [] [] none [])]).length
         then (cleaned_records 10000 [(1, SessionRecord.mk 9400
            (some (FoodData.mk "x" 1 1 1 1 none (some 9000))) [] [] none [])]).length
            - (cleaned_records 10000 [(1, SessionRecord.mk 9400
              (some (FoodData.mk "x" 1 1 1 1 none (some 9000))) [] [] none [])]).length / 5
         else (cleaned_records 10000 [(1, SessionRecord.mk 9400
            (some (FoodData.mk "x" 1 1 1 1 none (some 9000))) [] [] none [])]).length) ∧
    (if 10000 < (cleaned_records 10000 [(1, SessionRecord.mk 9400
          (some (FoodData.mk "x" 1 1 1 1 none (some 9000))) [] [] none [])]).length
     then (((cleaned_records 10000 [(1, SessionRecord.mk 9400
           (some (FoodData.mk "x" 1 1 1 1 none (some 9000))) [] [] none [])]).mergeSort
         fun a b => decide (a.2.last_activity ≤ b.2.last_activity)).take
           ((cleaned_records 10000 [(1, SessionRecord.mk 9400
             (some (FoodData.mk "x" 1 1 1 1 none (some 9000))) [] [] none [])]).length / 5)).all
         fun e => (cleanup_user_data 10000 [(1, SessionRecord.mk 9400
             (some (FoodData.mk "x" 1 1 1 1 none (some 9000))) [] [] none [])]).all
           fun kp => decide (e.2.last_activity ≤ kp.2.last_activity)
     else true) = true) :=
  ⟨List.mem_singleton.mpr rfl, by simp, rfl, rfl,
    cleanup_user_data_spec 10000
      [(1, SessionRecord.mk 9400
        (some (FoodData.mk "x" 1 1 1 1 none (some 9000))) [] [] none [])]
      1 (SessionRecord.mk 9400
        (some (FoodData.mk "x" 1 1 1 1 none (some 9000))) [] [] none [])
      (FoodData.mk "x" 1 1 1 1 none (some 9000)) 9000
      (List.mem_singleton.mpr rfl) (by simp) rfl rfl⟩

/-! ## Profile-setup wizard numeric steps (bot.py:817-936)

The pyTelegramBotAPI dialog state for a user is modelled as
`Option WizState` (`none` = no pending state, i.e. `delete_state`), and the
profile draft keys of `user_data[uid]` as `Option` fields.  A handler
receives the outcome of the numeric parse of the message text (`none` for a
non-numeric input: `int(...)`/`float(...)` raised `ValueError`); the age step
parses an integer, the weight and height steps parse floats with comma
accepted for the decimal point. -/

inductive WizState | waiting_for_age | waiting_for_weight | waiting_for_height
  deriving DecidableEq, Repr

structure WizardState where
  dialog : Option WizState
  gender : Option Gender
  age : Option ℤ
  weight : Option ℚ
  height : Option ℚ
  deriving DecidableEq, Repr

inductive Reply | error_reprompt | prompt_next
  deriving DecidableEq, Repr

/-- Translation of `process_age` (bot.py:817-853). -/
def process_age (parsed : Option ℤ) (st : WizardState) : WizardState × Reply :=
  match parsed with
  | none => (st, .error_reprompt)
  | some age =>
    if age < 12 ∨ age > 100 then (st, .error_reprompt)
    else ({ st with age := some age, dialog := some .waiting_for_weight },
      .prompt_next)

/-- Translation of `process_weight` (bot.py:855-892). -/
def process_weight (parsed : Option ℚ) (st : WizardState) : WizardState × Reply :=
  match parsed with
  | none => (st, .error_reprompt)
  | some weight =>
    if weight < 30 ∨ weight > 300 then (st, .error_reprompt)
    else ({ st with weight := some weight, dialog := some .waiting_for_height },
      .prompt_next)

/-- Translation of `process_height` (bot.py:894-936): on success the dialog
state is deleted and the activity-selection keyboard is sent. -/
def process_height (parsed : Option ℚ) (st : WizardState) : WizardState × Reply :=
  match parsed with
  | none => (st, .error_reprompt)
  | some height =>
    if height < 100 ∨ height > 250 then (st, .error_reprompt)
    else ({ st with height := some height, dialog := none }, .prompt_next)

/-- C7: at each numeric wizard step, a non-numeric input or an out-of-range
value (age outside [12,100], weight outside [30,300], height outside
[100,250]) produces an error re-prompt and leaves the whole wizard state —
dialog state and profile draft — unchanged, while a valid input stores the
value and advances the dialog (age → weight → height → done). -/
theorem wizard_validation_spec (st : WizardState) (a : ℤ) (w h : ℚ) :
    process_age none st = (st, .error_reprompt) ∧
    process_age (some a) st
      = (if a < 12 ∨ a > 100 then (st, .error_reprompt)
         else ({ st with age := some a, dialog := some .waiting_for_weight },
           .prompt_next)) ∧
    process_weight none st = (st, .error_reprompt) ∧
    process_weight (some w) st
      = (if w < 30 ∨ w > 300 then (st, .error_reprompt)
         else ({ st with weight := some w, dialog := some .waiting_for_height },
           .prompt_next)) ∧
    process_height none st = (st, .error_reprompt) ∧
    process_height (some h) st
      = (if h < 100 ∨ h > 250 then (st, .error_reprompt)
         else ({ st with height := some h, dialog := none }, .prompt_next)) :=
  ⟨rfl, rfl, rfl, rfl, rfl, rfl⟩

/-! ## Manual norms entry (`process_manual_norms`, bot.py:1031-1094) and
`DatabaseManager.update_user_profile` (db_manager.py:174-209)

A `users` row's nullable columns are `Option` fields.  `update_user_profile`
keyword arguments are a record of `Option`s: `some v` is a keyword passed
with a non-`None` value (every call site passes only such keywords), `none`
means the keyword is absent.  The input message's whitespace-split tokens are
modelled post-`float(...)` as `Option ℚ` (`none` = unparseable token). -/

structure UserRow where
  gender : Option Gender
  age : Option ℚ
  weight : Option ℚ
  height : Option ℚ
  activity_level : Option ℚ
  goal : Option Goal
  daily_calories : Option ℚ
  daily_proteins : Option ℚ
  daily_fats : Option ℚ
  daily_carbs : Option ℚ
  deriving DecidableEq, Repr

structure ProfileKwargs where
  gender : Option Gender := none
  age : Option ℚ := none
  weight : Option ℚ := none
  height : Option ℚ := none
  activity_level : Option ℚ := none
  goal : Option Goal := none
  daily_calories : Option ℚ := none
  daily_proteins : Option ℚ := none
  daily_fats : Option ℚ := none
  daily_carbs : Option ℚ := none
  deriving DecidableEq, Repr

/-- The kwargs-assignment loop of `update_user_profile` (db_manager.py:186-188):
set each field whose keyword is present with a non-`None` value. -/
def apply_kwargs (u : UserRow) (kw : ProfileKwargs) : UserRow :=
  { gender := match kw.gender with | some v => some v | none => u.gender
    age := match kw.age with | some v => some v | none => u.age
    weight := match kw.weight with | some v => some v | none => u.weight
    height := match kw.height with | some v => some v | none => u.height
    activity_level :=
      match kw.activity_level with | some v => some v | none => u.activity_level
    goal := match kw.goal with | some v => some v | none => u.goal
    daily_calories :=
      match kw.daily_calories with | some v => some v | none => u.daily_calories
    daily_proteins :=
      match kw.daily_proteins with | some v => some v | none => u.daily_proteins
    daily_fats := match kw.daily_fats with | some v => some v | none => u.daily_fats
    daily_carbs :=
      match kw.daily_carbs with | some v => some v | none => u.daily_carbs }

/-- Python truthiness of a nullable numeric column: `None` and `0` are falsy. -/
def truthyQ (o : Option ℚ) : Bool :=
  match o with
  | some v => decide (v ≠ 0)
  | none => false

/-- Translation of `DatabaseManager.update_user_profile` (db_manager.py:174-209):
returns `none` when the user row does not exist; otherwise applies the
keywords and, when the profile is complete and `daily_calories` is not among
the keywords, recomputes the four norms via `calculate_daily_norms`. -/
def update_user_profile (user : Option UserRow) (kw : ProfileKwargs) :
    Option UserRow :=
  match user with
  | none => none
  | some u0 =>
    let u1 := apply_kwargs u0 kw
    let u2 :=
      if u1.gender.isSome ∧ truthyQ u1.age ∧ truthyQ u1.weight ∧ truthyQ u1.height
          ∧ truthyQ u1.activity_level ∧ kw.daily_calories = none then
        let norms := calculate_daily_norms (u1.gender.getD .male)
          (u1.age.getD 0) (u1.weight.getD 0) (u1.height.getD 0)
          (u1.activity_level.getD 0) (u1.goal.getD .maintenance)
        { u1 with
          daily_calories := some norms.daily_calories
          daily_proteins := some norms.daily_proteins
          daily_fats := some norms.daily_fats
          daily_carbs := some norms.daily_carbs }
      else u1
    some u2

inductive ManualNormsReply | ok | rejected | failed
  deriving DecidableEq, Repr

/-- Translation of `process_manual_norms` (bot.py:1031-1094): exactly four
whitespace-separated parseable numbers, calories in [500,10000], protein and
fat in [10,500], carbs in [10,1000]; any arity, parse or range violation
replies with an error and changes nothing; otherwise the four norms are
stored verbatim through `update_user_profile`. -/
def process_manual_norms (tokens : List (Option ℚ)) (user : Option UserRow) :
    ManualNormsReply × Option UserRow :=
  match tokens with
  | [t0, t1, t2, t3] =>
    match t0, t1, t2, t3 with
    | some calories, some proteins, some fats, some carbs =>
      if calories < 500 ∨ calories > 10000 then (.rejected, user)
      else if proteins < 10 ∨ proteins > 500 then (.rejected, user)
      else if fats < 10 ∨ fats > 500 then (.rejected, user)
      else if carbs < 10 ∨ carbs > 1000 then (.rejected, user)
      else
        match update_user_profile user
          { daily_calories := some calories
            daily_proteins := some proteins
            daily_fats := some fats
            daily_carbs := some carbs } with
        | some u' => (.ok, some u')
        | none => (.failed, user)
    | _, _, _, _ => (.rejected, user)
  | _ => (.rejected, user)

/-- C8: manual norms entry accepts exactly four numbers with calories in
[500,10000], protein in [10,500], fat in [10,500], carbs in [10,1000]; the
input `"2000 150 70 200"` stores daily_calories=2000, daily_proteins=150,
daily_fats=70, daily_carbs=200 exactly (no recomputation, since
`daily_calories` is among the keywords); any other arity (e.g. the 3-token
`"2000 150 70"`), unparseable token, or range violation replies with an
error and leaves the stored row unchanged, and the handler never touches the
dialog state. -/
theorem process_manual_norms_spec (u : UserRow) (tokens : List (Option ℚ))
    (hlen : tokens.length ≠ 4) (c p f cb : ℚ) :
    process_manual_norms tokens (some u) = (.rejected, some u) ∧
    process_manual_norms [some c, some p, some f, some cb] (some u)
      = (if c < 500 ∨ c > 10000 ∨ p < 10 ∨ p > 500 ∨ f < 10 ∨ f > 500
            ∨ cb < 10 ∨ cb > 1000
         then (.rejected, some u)
         else (.ok, some { u with
            daily_calories := some c
            daily_proteins := some p
            daily_fats := some f
            daily_carbs := some cb })) ∧
    process_manual_norms [some 2000, some 150, some 70, some 200] (some u)
      = (.ok, some { u with
          daily_calories := some 2000
          daily_proteins := some 150
          daily_fats := some 70
          daily_carbs := some 200 }) ∧
    process_manual_norms [some 2000, some 150, some 70] (some u)
      = (.rejected, some u) := by
  have hgen : ∀ c' p' f' cb' : ℚ,
      process_manual_norms [some c', some p', some f', some cb'] (some u)
        = (if c' < 500 ∨ c' > 10000 ∨ p' < 10 ∨ p' > 500 ∨ f' < 10 ∨ f' > 500
              ∨ cb' < 10 ∨ cb' > 1000
           then (.rejected, some u)
           else (.ok, some { u with
              daily_calories := some c'
              daily_proteins := some p'
              daily_fats := some f'
              daily_carbs := some cb' })) := by
    intro c' p' f' cb'
    simp only [process_manual_norms]
    by_cases h1 : c' < 500 ∨ c' > 10000
    · rw [if_pos h1, if_pos (by tauto)]
    · rw [if_neg h1]
      by_cases h2 : p' < 10 ∨ p' > 500
      · rw [if_pos h2, if_pos (by tauto)]
      · rw [if_neg h2]
        by_cases h3 : f' < 10 ∨ f' > 500
        · rw [if_pos h3, if_pos (by tauto)]
        · rw [if_neg h3]
          by_cases h4 : cb' < 10 ∨ cb' > 1000
          · rw [if_pos h4, if_pos (by tauto)]
          · rw [if_neg h4, if_neg (by tauto)]
            simp [update_user_profile, apply_kwargs]
  refine ⟨?_, hgen c p f cb, ?_, rfl⟩
  · rcases tokens with _ | ⟨a, _ | ⟨b, _ | ⟨d, _ | ⟨e, _ | ⟨g, rest⟩⟩⟩⟩⟩
    · rfl
    · rfl
    · rfl
    · rfl
    · exact absurd rfl hlen
    · rfl
  · rw [hgen 2000 150 70 200]
    norm_num

/-- Witness for `process_manual_norms_spec`: an empty token list (arity 0)
and the concrete spec inputs, against an empty profile row. -/
theorem process_manual_norms_spec_witness :
    (([] : List (Option ℚ)).length ≠ 4) ∧
    (process_manual_norms []
        (some (UserRow.mk none none none none none none none none none none))
      = (.rejected,
        some (UserRow.mk none none none none none none none none none none)) ∧
    process_manual_norms [some 2000, some 150, some 70, some 200]
        (some (UserRow.mk none none none none none none none none none none))
      = (if (2000 : ℚ) < 500 ∨ (2000 : ℚ) > 10000 ∨ (150 : ℚ) < 10 ∨ (150 : ℚ) > 500
            ∨ (70 : ℚ) < 10 ∨ (70 : ℚ) > 500 ∨ (200 : ℚ) < 10 ∨ (200 : ℚ) > 1000
         then (.rejected,
           some (UserRow.mk none none none none none none none none none none))
         else (.ok,
           some { UserRow.mk none none none none none none none none none none with
              daily_calories := some 2000
              daily_proteins := some 150
              daily_fats := some 70
              daily_carbs := some 200 })) ∧
    process_manual_norms [some 2000, some 150, some 70, some 200]
        (some (UserRow.mk none none none none none none none none none none))
      = (.ok,
        some { UserRow.mk none none none none none none none none none none with
          daily_calories := some 2000
          daily_proteins := some 150
          daily_fats := some 70
          daily_carbs := some 200 }) ∧
    process_manual_norms [some 2000, some 150, some 70]
        (some (UserRow.mk none none none none none none none none none none))
      = (.rejected,
        some (UserRow.mk none none none none none none none none none none))) :=
  ⟨by norm_num,
    process_manual_norms_spec
      (UserRow.mk none none none none none none none none none none)
      [] (by norm_num) 2000 150 70 200⟩

end SnapEat
